import Mathlib

/-!
Shallow embedding of the two-node replication core of the food-app backend.

Each Mongo collection is modelled as a `List` of records; `findOne` becomes
`List.find?` and the find-then-`save()` pattern becomes `updateFirst`
(replace the first record matched by the query predicate).  Response statuses
are the HTTP codes the handlers send.  Money amounts are modelled as `Rat`
(the JS code computes with IEEE doubles; the arithmetic relations under
scrutiny are stated over exact rationals).  The request validators and
Mongoose enum/range validation are upstream of the reconciliation logic
modelled here — the functions below receive already-validated envelopes, as
the handler bodies do after their validation guards; required-field presence
of sync payloads, which decides whether `create` succeeds, is modelled
explicitly (`mkProduct?`).
-/

namespace FoodApp

/-- `findOne` + mutate + `save()`: replace the first element satisfying `p`
by its image under `f`; leave everything else untouched. -/
def updateFirst (p : α → Bool) (f : α → α) : List α → List α
  | [] => []
  | x :: xs => if p x then f x :: xs else x :: updateFirst p f xs

/-! ## Accounts (`User` model, `userController.js`) -/

/-- A persisted `User` document (fields of `UserModel` used by the sync path). -/
structure UserRec where
  name : String
  email : String
  password : String
  syncId : Option String
  serverOrigin : String
deriving DecidableEq, Repr

/-- Request body of `POST /api/users/sync` as sent by `registerUser`'s
propagator: the replicable fields of the freshly created user. -/
structure UserSyncEnv where
  name : String
  email : String
  password : String
  syncId : String
  serverOrigin : String
deriving DecidableEq, Repr

def findUserBySyncId (s : List UserRec) (sid : String) : Option UserRec :=
  s.find? (fun u => u.syncId == some sid)

def findUserByEmail (s : List UserRec) (e : String) : Option UserRec :=
  s.find? (fun u => u.email == e)

/-- `syncUser` (userController.js, lines 114-168): dedup by `syncId`;
else adopt `syncId`/`serverOrigin` onto the record matching `email`;
else create the replica record.  Returns the updated store and the
HTTP status of the response. -/
def syncUser (s : List UserRec) (env : UserSyncEnv) : List UserRec × Nat :=
  match findUserBySyncId s env.syncId with
  | some _ => (s, 200)
  | none =>
    match findUserByEmail s env.email with
    | some _ =>
      (updateFirst (fun u => u.email == env.email)
        (fun u => { u with syncId := some env.syncId,
                           serverOrigin := env.serverOrigin }) s, 200)
    | none =>
      (s ++ [⟨env.name, env.email, env.password, some env.syncId, env.serverOrigin⟩], 201)

/-- The envelope `registerUser` dispatches for a local user record. -/
def envelopeOf (u : UserRec) (sid : String) : UserSyncEnv :=
  ⟨u.name, u.email, u.password, sid, u.serverOrigin⟩

/-! ## Catalog items (`Product` model, `productController.js`) -/

/-- A persisted `Product` document. -/
structure ProductRec where
  name : String
  description : String
  price : Rat
  category : String
  available : Bool
  rating : Rat
  syncId : Option String
  serverOrigin : String
  originalServerId : Option String
deriving DecidableEq, Repr

/-- The `productInfo` rest of a product sync body: the schema's replicable
fields, each possibly absent (`undefined`) in the envelope. -/
structure ProductPayload where
  name : Option String
  description : Option String
  price : Option Rat
  category : Option String
  available : Option Bool
  rating : Option Rat
deriving DecidableEq, Repr

/-- Body of `POST /api/products/sync`: `const { syncId, serverOrigin,
originalServerId, ...productInfo } = req.body`. -/
structure ProductSyncEnv where
  payload : ProductPayload
  syncId : String
  serverOrigin : String
  originalServerId : Option String
deriving DecidableEq, Repr

/-- The merge loop `Object.keys(productInfo).forEach(key => if defined then
assign)`: overwrite exactly the payload fields that are present. -/
def applyPayload (p : ProductPayload) (r : ProductRec) : ProductRec :=
  { r with
    name := p.name.getD r.name,
    description := p.description.getD r.description,
    price := p.price.getD r.price,
    category := p.category.getD r.category,
    available := p.available.getD r.available,
    rating := p.rating.getD r.rating }

/-- `Product.create({...productInfo, syncId, serverOrigin, originalServerId})`:
succeeds when the schema's required fields are present (absent `available`
and `rating` take the schema defaults `true` and `0`); a missing required
field makes Mongoose reject the create (handler answers 500). -/
def mkProduct? (env : ProductSyncEnv) : Option ProductRec :=
  match env.payload.name, env.payload.description, env.payload.price, env.payload.category with
  | some n, some d, some pr, some c =>
      some ⟨n, d, pr, c, env.payload.available.getD true, env.payload.rating.getD 0,
            some env.syncId, env.serverOrigin, env.originalServerId⟩
  | _, _, _, _ => none

/-- Create-from-sync tail of `syncProduct`. -/
def syncProductCreate (s : List ProductRec) (env : ProductSyncEnv) : List ProductRec × Nat :=
  match mkProduct? env with
  | some p => (s ++ [p], 201)
  | none => (s, 500)

/-- `syncProduct` (productController.js, lines 385-470): merge onto the record
matching `syncId`; else adopt the `syncId` onto the record matching
`(originalServerId, serverOrigin)` and merge; else create from the payload. -/
def syncProduct (s : List ProductRec) (env : ProductSyncEnv) : List ProductRec × Nat :=
  match s.find? (fun r => r.syncId == some env.syncId) with
  | some _ =>
    (updateFirst (fun r => r.syncId == some env.syncId) (applyPayload env.payload) s, 200)
  | none =>
    match env.originalServerId with
    | some oid =>
      match s.find? (fun r => r.originalServerId == some oid && r.serverOrigin == env.serverOrigin) with
      | some _ =>
        (updateFirst
          (fun r => r.originalServerId == some oid && r.serverOrigin == env.serverOrigin)
          (fun r => { applyPayload env.payload r with syncId := some env.syncId }) s, 200)
      | none => syncProductCreate s env
    | none => syncProductCreate s env

/-- `syncProductDelete` (productController.js, lines 525-566):
`findOneAndDelete({ syncId })`; 404 when no record matches, 200 after the
delete. -/
def syncProductDelete (s : List ProductRec) (sid : String) : List ProductRec × Nat :=
  match s.find? (fun r => r.syncId == some sid) with
  | none => (s, 404)
  | some _ => (s.eraseP (fun r => r.syncId == some sid), 200)

/-! ## Baskets (`Cart` model, `cartController.js`) -/

/-- A line of a persisted cart. -/
structure CartItem where
  product : String
  quantity : Nat
  price : Rat
  total : Rat
deriving DecidableEq, Repr

/-- A persisted `Cart` document. -/
structure CartRec where
  user : String
  items : List CartItem
  subTotal : Rat
  totalItems : Nat
  syncId : Option String
  serverOrigin : String
deriving DecidableEq, Repr

/-- Body of `POST /api/carts/sync`: `{ cartData, syncId, serverOrigin,
userId }`; the handler reads `cartData.items`, `cartData.subTotal` and
`cartData.totalItems`, each defaulted when absent (`|| []`, `|| 0`). -/
structure CartSyncEnv where
  items : Option (List CartItem)
  subTotal : Option Rat
  totalItems : Option Nat
  syncId : String
  serverOrigin : String
  userId : String
deriving DecidableEq, Repr

/-- `syncCart` (cartController.js, lines 529-619): look the cart up by its
own `syncId`; overwrite items/subTotal/totalItems when found, else create a
cart for the envelope's raw `userId`. -/
def syncCart (s : List CartRec) (env : CartSyncEnv) : List CartRec × Nat :=
  match s.find? (fun c => c.syncId == some env.syncId) with
  | some _ =>
    (updateFirst (fun c => c.syncId == some env.syncId)
      (fun c => { c with items := env.items.getD [],
                         subTotal := env.subTotal.getD 0,
                         totalItems := env.totalItems.getD 0 }) s, 200)
  | none =>
    (s ++ [⟨env.userId, env.items.getD [], env.subTotal.getD 0, env.totalItems.getD 0,
            some env.syncId, env.serverOrigin⟩], 201)

/-- `syncCartClear` (cartController.js, lines 711-762): find by `syncId`;
404 when absent, else empty the item list and answer 200. -/
def syncCartClear (s : List CartRec) (sid : String) : List CartRec × Nat :=
  match s.find? (fun c => c.syncId == some sid) with
  | none => (s, 404)
  | some _ =>
    (updateFirst (fun c => c.syncId == some sid) (fun c => { c with items := [] }) s, 200)

/-! ## Orders (`Order` model, `orderController.js`) -/

/-- A line of an order (`orderItemSchema`). -/
structure OrderItem where
  product : String
  name : String
  price : Rat
  quantity : Nat
  total : Rat
deriving DecidableEq, Repr

/-- A persisted `Order` document (the fields the sync/creation paths touch;
`actualDelivery` is a timestamp). -/
structure OrderRec where
  user : String
  orderNumber : String
  items : List OrderItem
  status : String
  paymentMethod : String
  paymentStatus : String
  subtotal : Rat
  tax : Rat
  deliveryFee : Rat
  totalAmount : Rat
  syncId : Option String
  serverOrigin : String
  actualDelivery : Option Nat
deriving DecidableEq, Repr

/-- `orderSchema.pre("save")` (Order model, lines 92-108), run on *every*
save: generate `orderNumber` when empty (`genNum` stands for the generated
value), recompute each line's `total = price * quantity` and
`subtotal = Σ totals` when the item list is nonempty, and always recompute
`totalAmount = subtotal + tax + deliveryFee`. -/
def preSave (genNum : String) (o : OrderRec) : OrderRec :=
  let o1 := if o.orderNumber = "" then { o with orderNumber := genNum } else o
  let o2 :=
    if o1.items.isEmpty then o1
    else
      let items' := o1.items.map (fun i => { i with total := i.price * i.quantity })
      { o1 with items := items', subtotal := (items'.map (fun i => i.total)).sum }
  { o2 with totalAmount := o2.subtotal + o2.tax + o2.deliveryFee }

/-- The catalog view `createOrder` populates per cart line
(`name price available category`, plus the id). -/
structure CatalogEntry where
  pid : String
  name : String
  price : Rat
  available : Bool
deriving DecidableEq, Repr

def findCatalog (catalog : List CatalogEntry) (pid : String) : Option CatalogEntry :=
  catalog.find? (fun p => p.pid == pid)

/-- The availability filter of `createOrder` (orderController.js, lines
825-845): drop cart lines whose product is missing or unavailable; a
surviving line records the *current* product price in `price` but the cart's
stored `item.price × quantity` in `total`. -/
def mkOrderItems (catalog : List CatalogEntry) (items : List CartItem) : List OrderItem :=
  items.filterMap (fun it =>
    match findCatalog catalog it.product with
    | none => none
    | some p =>
      if p.available then
        some ⟨it.product, p.name, p.price, it.quantity, it.price * it.quantity⟩
      else none)

/-- An envelope dispatched to the peer by `createOrder`'s propagator. -/
inductive Outbound where
  | cartClear (syncId : String)
  | orderUpsert (o : OrderRec)
deriving DecidableEq, Repr

/-- What `createOrder` leaves behind: the HTTP status, the created order (if
any), the (possibly cleared) cart and the envelopes scheduled for the peer. -/
structure CreateOrderResult where
  status : Nat
  order : Option OrderRec
  cart : CartRec
  sent : List Outbound
deriving DecidableEq, Repr

/-- `createOrder` (orderController.js, lines 783-949), from the point where
the requester's cart has been fetched: filter the cart lines, fail with 400
when the cart is empty or no line survives, else compute
`subtotal/tax/deliveryFee/totalAmount`, save the order (through the
pre-save hook), clear the cart locally, and schedule the cart-clear and
order envelopes for the peer. -/
def createOrder (catalog : List CatalogEntry) (cart : CartRec)
    (paymentMethod : Option String) (sid serverOrigin genNum : String) :
    CreateOrderResult :=
  if cart.items.isEmpty then ⟨400, none, cart, []⟩
  else
    let orderItems := mkOrderItems catalog cart.items
    if orderItems.isEmpty then ⟨400, none, cart, []⟩
    else
      let subtotal := (orderItems.map (fun i => i.total)).sum
      let tax := subtotal * (5 / 100)
      let deliveryFee : Rat := if subtotal > 500 then 0 else 49
      let totalAmount := subtotal + tax + deliveryFee
      let o := preSave genNum
        ⟨cart.user, "", orderItems, "pending", paymentMethod.getD "cash_on_delivery",
         "pending", subtotal, tax, deliveryFee, totalAmount, some sid, serverOrigin, none⟩
      let cart' := { cart with items := [], subTotal := 0, totalItems := 0 }
      let sent :=
        (match cart.syncId with
         | some cs => [Outbound.cartClear cs]
         | none => []) ++ [Outbound.orderUpsert o]
      ⟨201, some o, cart', sent⟩

/-- The projection of the user store that `orderController` consults
(`User.findOne({ email })` → `localUser._id`). -/
structure AccountView where
  uid : String
  email : String
deriving DecidableEq, Repr

/-- Body of `POST /api/orders/sync`: the originator's whole order document
plus the sync identity and the owning account's email. -/
structure OrderSyncEnv where
  orderData : OrderRec
  syncId : String
  serverOrigin : String
  userEmail : String
deriving DecidableEq, Repr

/-- `syncOrder` (orderController.js, lines 1331-1449): resolve the local user
by email (404 when absent); clear that user's cart; then merge by `syncId`
(`Object.assign` of the whole payload, `user` re-pointed to the local
account), else adopt by `orderNumber` (the trailing `Object.assign` restores
every payload field, including the originator's `user`), else create from
the payload; every save runs the pre-save hook. -/
def syncOrder (users : List AccountView) (carts : List CartRec) (orders : List OrderRec)
    (env : OrderSyncEnv) (genNum : String) :
    List CartRec × List OrderRec × Nat :=
  match users.find? (fun u => u.email == env.userEmail) with
  | none => (carts, orders, 404)
  | some lu =>
    let carts' := updateFirst (fun c => c.user == lu.uid)
      (fun c => { c with items := [] }) carts
    match orders.find? (fun o => o.syncId == some env.syncId) with
    | some _ =>
      (carts',
       updateFirst (fun o => o.syncId == some env.syncId)
         (fun _ => preSave genNum { env.orderData with user := lu.uid }) orders, 200)
    | none =>
      match orders.find? (fun o => o.orderNumber == env.orderData.orderNumber) with
      | some _ =>
        (carts',
         updateFirst (fun o => o.orderNumber == env.orderData.orderNumber)
           (fun _ => preSave genNum env.orderData) orders, 200)
      | none =>
        (carts',
         orders ++ [preSave genNum
           { env.orderData with syncId := some env.syncId,
                                serverOrigin := env.serverOrigin, user := lu.uid }], 200)

/-- `syncOrderUpdate` (orderController.js, lines 1452-1500): find by
`syncId` (404 when absent); on `action == "update_status"` with a (truthy)
status, set `status`, and when it is `"delivered"` also stamp
`actualDelivery` with the current time and complete the payment; then save
(pre-save hook). -/
def syncOrderUpdate (orders : List OrderRec) (sid status action : String)
    (now : Nat) (genNum : String) : List OrderRec × Nat :=
  match orders.find? (fun o => o.syncId == some sid) with
  | none => (orders, 404)
  | some _ =>
    if action = "update_status" ∧ status ≠ "" then
      (updateFirst (fun o => o.syncId == some sid)
        (fun o =>
          let o1 := { o with status := status }
          let o2 :=
            if status = "delivered" then
              { o1 with actualDelivery := some now, paymentStatus := "completed" }
            else o1
          preSave genNum o2) orders, 200)
    else (orders, 200)

/-- A record as every saved order leaves the store: `orderNumber` generated,
line totals, `subtotal` and `totalAmount` consistent (every persisted order
satisfies this because every save runs the pre-save hook). -/
def SavedOrder (o : OrderRec) : Prop :=
  o.orderNumber ≠ "" ∧
  (∀ it ∈ o.items, it.total = it.price * it.quantity) ∧
  (¬o.items.isEmpty → o.subtotal = (o.items.map (fun i => i.total)).sum) ∧
  o.totalAmount = o.subtotal + o.tax + o.deliveryFee

/-- How a record persisted by `syncOrder` relates to the envelope payload:
status and payment fields, `tax` and `deliveryFee` are adopted verbatim,
while the pre-save hook has recomputed each line's total, the subtotal (when
the line list is nonempty) and `totalAmount`. -/
def AdoptedRecomputed (payload o : OrderRec) : Prop :=
  o.status = payload.status ∧
  o.paymentMethod = payload.paymentMethod ∧
  o.paymentStatus = payload.paymentStatus ∧
  o.tax = payload.tax ∧
  o.deliveryFee = payload.deliveryFee ∧
  (∀ it ∈ o.items, it.total = it.price * (it.quantity : Rat)) ∧
  o.totalAmount = o.subtotal + o.tax + o.deliveryFee ∧
  (payload.items.isEmpty = false →
    o.subtotal = (payload.items.map (fun i => i.price * (i.quantity : Rat))).sum)

/-! ## Generic lemmas about `find?` and `updateFirst` -/

theorem updateFirst_idem (p : α → Bool) (f : α → α)
    (hp : ∀ x, p (f x) = p x) (hff : ∀ x, f (f x) = f x) :
    ∀ l : List α, updateFirst p f (updateFirst p f l) = updateFirst p f l := by
  intro l
  induction l with
  | nil => rfl
  | cons x xs ih =>
    by_cases hx : p x
    · simp [updateFirst, hx, hp, hff]
    · simp [updateFirst, hx, ih]

theorem find?_updateFirst_self (p : α → Bool) (f : α → α) (r : α)
    (hp : ∀ x, p (f x) = p x) :
    ∀ l : List α, l.find? p = some r → (updateFirst p f l).find? p = some (f r) := by
  intro l
  induction l with
  | nil => simp
  | cons x xs ih =>
    intro h
    by_cases hx : p x
    · rw [List.find?_cons_of_pos _ hx] at h
      cases h
      simp [updateFirst, hx, List.find?_cons_of_pos, hp, hx]
    · rw [List.find?_cons_of_neg _ hx] at h
      have := ih h
      simp [updateFirst, hx, List.find?_cons_of_neg, this]

theorem find?_updateFirst_self_of_true (p : α → Bool) (f : α → α) (r : α)
    (hf : ∀ x, p (f x) = true) :
    ∀ l : List α, l.find? p = some r → (updateFirst p f l).find? p = some (f r) := by
  intro l
  induction l with
  | nil => simp
  | cons x xs ih =>
    intro h
    by_cases hx : p x
    · rw [List.find?_cons_of_pos _ hx] at h
      cases h
      simp [updateFirst, hx, List.find?_cons_of_pos, hf]
    · rw [List.find?_cons_of_neg _ hx] at h
      have := ih h
      simp [updateFirst, hx, List.find?_cons_of_neg, this]

theorem find?_updateFirst_cross (p₁ p₂ : α → Bool) (f : α → α) (r : α)
    (hf : ∀ x, p₁ (f x) = true) :
    ∀ l : List α, l.find? p₁ = none → l.find? p₂ = some r →
      (updateFirst p₂ f l).find? p₁ = some (f r) := by
  intro l
  induction l with
  | nil => simp
  | cons x xs ih =>
    intro h₁ h₂
    rw [List.find?_cons] at h₁
    by_cases hx₁ : p₁ x
    · simp [hx₁] at h₁
    · simp only [hx₁] at h₁
      by_cases hx₂ : p₂ x
      · rw [List.find?_cons_of_pos _ hx₂] at h₂
        cases h₂
        simp [updateFirst, hx₂, List.find?_cons_of_pos, hf]
      · rw [List.find?_cons_of_neg _ hx₂] at h₂
        have := ih h₁ h₂
        simp [updateFirst, hx₂, List.find?_cons_of_neg, hx₁, this]

theorem updateFirst_after_of_none (p₁ p₂ : α → Bool) (f g : α → α)
    (hf : ∀ x, p₁ (f x) = true) (hgf : ∀ x, g (f x) = f x) :
    ∀ l : List α, l.find? p₁ = none →
      updateFirst p₁ g (updateFirst p₂ f l) = updateFirst p₂ f l := by
  intro l
  induction l with
  | nil => intro _; rfl
  | cons x xs ih =>
    intro h₁
    rw [List.find?_cons] at h₁
    by_cases hx₁ : p₁ x
    · simp [hx₁] at h₁
    · simp only [hx₁] at h₁
      by_cases hx₂ : p₂ x
      · simp [updateFirst, hx₂, hf, hgf]
      · simp [updateFirst, hx₂, hx₁, ih h₁]

theorem find?_append_last (p : α → Bool) (a : α)
    (ha : p a = true) :
    ∀ l : List α, l.find? p = none → (l ++ [a]).find? p = some a := by
  intro l
  induction l with
  | nil => intro _; simp [ha]
  | cons x xs ih =>
    intro h
    rw [List.find?_cons] at h
    by_cases hx : p x
    · simp [hx] at h
    · simp only [hx] at h
      simp [List.find?_cons_of_neg, hx, ih h]

theorem updateFirst_append_last (p : α → Bool) (f : α → α) (a : α)
    (ha : p a = true) :
    ∀ l : List α, l.find? p = none →
      updateFirst p f (l ++ [a]) = l ++ [f a] := by
  intro l
  induction l with
  | nil => intro _; simp [updateFirst, ha]
  | cons x xs ih =>
    intro h
    rw [List.find?_cons] at h
    by_cases hx : p x
    · simp [hx] at h
    · simp only [hx] at h
      simp [updateFirst, hx, ih h]

theorem getD_getD (o : Option α) (a : α) : o.getD (o.getD a) = o.getD a := by
  cases o <;> rfl

/-! ## C1 / C4 — account reconciliation (`syncUser`) -/

/-- C1 counterexample: two nodes each hold a locally created account for
`alice@example.com` with their own syncIds.  After each node reconciles the
peer's envelope, each store still holds exactly one record, but node 1's
record carries node 2's syncId and vice versa — the two records do not share
one syncId. -/
theorem syncUser_dualCreate_no_shared_syncId :
    (syncUser
        [⟨"Alice", "alice@example.com", "hashA", some "server1_1700_aaa", "server1"⟩]
        ⟨"Alice", "alice@example.com", "hashB", "server2_1701_bbb", "server2"⟩).1
      = [⟨"Alice", "alice@example.com", "hashA", some "server2_1701_bbb", "server2"⟩] ∧
    (syncUser
        [⟨"Alice", "alice@example.com", "hashB", some "server2_1701_bbb", "server2"⟩]
        ⟨"Alice", "alice@example.com", "hashA", "server1_1700_aaa", "server1"⟩).1
      = [⟨"Alice", "alice@example.com", "hashB", some "server1_1700_aaa", "server1"⟩] ∧
    some "server2_1701_bbb" ≠ (some "server1_1700_aaa" : Option String) := by
  refine ⟨by decide, by decide, by decide⟩

/-- C1 amended: in the dual-create race each node ends up with exactly one
record for the shared email, but the syncIds are exchanged, not converged:
each node's record carries the *other* node's syncId, so the two records
share one syncId only if the independently generated syncIds coincide. -/
theorem syncUser_dualCreate_swaps_syncIds
    (nA nB e pA pB sA sB oA oB : String) (h : sA ≠ sB) :
    (syncUser [⟨nA, e, pA, some sA, oA⟩] ⟨nB, e, pB, sB, oB⟩).1
      = [⟨nA, e, pA, some sB, oB⟩] ∧
    (syncUser [⟨nB, e, pB, some sB, oB⟩] ⟨nA, e, pA, sA, oA⟩).1
      = [⟨nB, e, pB, some sA, oA⟩] := by
  constructor
  · simp [syncUser, findUserBySyncId, findUserByEmail, updateFirst, h]
  · simp [syncUser, findUserBySyncId, findUserByEmail, updateFirst, Ne.symm h]

theorem syncUser_dualCreate_swaps_syncIds_witness :
    (syncUser [⟨"A", "e@x.com", "p1", some "server1_1_a", "server1"⟩]
        ⟨"B", "e@x.com", "p2", "server2_1_b", "server2"⟩).1
      = [⟨"A", "e@x.com", "p1", some "server2_1_b", "server2"⟩] ∧
    (syncUser [⟨"B", "e@x.com", "p2", some "server2_1_b", "server2"⟩]
        ⟨"A", "e@x.com", "p1", "server1_1_a", "server1"⟩).1
      = [⟨"B", "e@x.com", "p2", some "server1_1_a", "server1"⟩] :=
  syncUser_dualCreate_swaps_syncIds "A" "B" "e@x.com" "p1" "p2"
    "server1_1_a" "server2_1_b" "server1" "server2" (by decide)

/-- C4 counterexample: an inbound account envelope whose syncId is unknown but
whose email matches a local record.  `syncUser` adopts the syncId and
serverOrigin but does *not* apply the payload: the local record keeps its old
name and password hash, refuting "applies the payload fields (name, password
hash) onto the local record". -/
theorem syncUser_adopt_payload_not_applied :
    (syncUser [⟨"Old Name", "bob@x.com", "oldhash", some "server2_5_x", "server2"⟩]
        ⟨"New Name", "bob@x.com", "newhash", "server1_9_y", "server1"⟩).1
      = [⟨"Old Name", "bob@x.com", "oldhash", some "server1_9_y", "server1"⟩] ∧
    ("Old Name" : String) ≠ "New Name" ∧ ("oldhash" : String) ≠ "newhash" := by
  refine ⟨by decide, by decide, by decide⟩

/-- C4 amended: on the email-match (adoption) branch, `syncUser` adopts the
incoming `syncId` and overwrites `serverOrigin`, but leaves the payload
fields (name, password hash) of the local record unchanged, and answers 200. -/
theorem syncUser_adopt_keeps_local_payload
    (s : List UserRec) (env : UserSyncEnv) (u : UserRec)
    (h1 : findUserBySyncId s env.syncId = none)
    (h2 : findUserByEmail s env.email = some u) :
    findUserByEmail (syncUser s env).1 env.email
      = some ⟨u.name, u.email, u.password, some env.syncId, env.serverOrigin⟩ ∧
    (syncUser s env).2 = 200 := by
  have h2' : s.find? (fun v => v.email == env.email) = some u := h2
  have key := find?_updateFirst_self (fun v => v.email == env.email)
    (fun v => { v with syncId := some env.syncId, serverOrigin := env.serverOrigin }) u
    (fun x => rfl) s h2'
  unfold syncUser
  rw [h1, h2]
  exact ⟨key, rfl⟩

theorem syncUser_adopt_keeps_local_payload_witness :
    findUserByEmail
        (syncUser [⟨"Old", "c@x.com", "oldh", some "server2_7_z", "server2"⟩]
          ⟨"New", "c@x.com", "newh", "server1_8_w", "server1"⟩).1 "c@x.com"
      = some ⟨"Old", "c@x.com", "oldh", some "server1_8_w", "server1"⟩ ∧
    (syncUser [⟨"Old", "c@x.com", "oldh", some "server2_7_z", "server2"⟩]
        ⟨"New", "c@x.com", "newh", "server1_8_w", "server1"⟩).2 = 200 :=
  syncUser_adopt_keeps_local_payload
    [⟨"Old", "c@x.com", "oldh", some "server2_7_z", "server2"⟩]
    ⟨"New", "c@x.com", "newh", "server1_8_w", "server1"⟩
    ⟨"Old", "c@x.com", "oldh", some "server2_7_z", "server2"⟩
    (by decide) (by decide)

/-! ## C2 — not-found on delete-sync / clear-sync -/

/-- C2 counterexample: a delete-sync and a clear-sync whose syncId matches no
local record leave the store unchanged but answer 404 (the handlers' explicit
not-found branch), not a success response. -/
theorem syncDelete_clear_notFound_is_404 :
    syncProductDelete [] "server1_product_1_x" = ([], 404) ∧
    syncCartClear [] "server1_cart_u1_1" = ([], 404) ∧
    (404 : Nat) ≠ 200 := by
  refine ⟨by decide, by decide, by decide⟩

/-- C2 amended: when the syncId of an inbound CatalogItem delete-sync or
Basket clear-sync matches no local record, the local store is left unchanged
but the handler answers with a 404 not-found error response, not success. -/
theorem syncDelete_clear_notFound_noop
    (ps : List ProductRec) (cs : List CartRec) (psid csid : String)
    (h1 : ps.find? (fun r => r.syncId == some psid) = none)
    (h2 : cs.find? (fun c => c.syncId == some csid) = none) :
    syncProductDelete ps psid = (ps, 404) ∧
    syncCartClear cs csid = (cs, 404) := by
  constructor
  · unfold syncProductDelete
    rw [h1]
  · unfold syncCartClear
    rw [h2]

theorem syncDelete_clear_notFound_noop_witness :
    syncProductDelete [] "server2_product_9_q" = ([], 404) ∧
    syncCartClear [] "server2_cart_u2_9" = ([], 404) :=
  syncDelete_clear_notFound_noop [] [] "server2_product_9_q" "server2_cart_u2_9"
    (by decide) (by decide)

/-! ## C9 — frame property of the product merge -/

/-- C9: on the syncId-match branch of `syncProduct`, the merge excludes the
identity fields — `syncId`, `serverOrigin` and `originalServerId` of the
matched record are unchanged — and each payload field overwrites the record
exactly when it is present in the envelope (`Option.getD`). -/
theorem syncProduct_merge_frame
    (s : List ProductRec) (env : ProductSyncEnv) (r : ProductRec)
    (h : s.find? (fun x => x.syncId == some env.syncId) = some r) :
    ∃ r', (syncProduct s env).1.find? (fun x => x.syncId == some env.syncId) = some r' ∧
      r'.syncId = r.syncId ∧
      r'.serverOrigin = r.serverOrigin ∧
      r'.originalServerId = r.originalServerId ∧
      r'.name = env.payload.name.getD r.name ∧
      r'.description = env.payload.description.getD r.description ∧
      r'.price = env.payload.price.getD r.price ∧
      r'.category = env.payload.category.getD r.category ∧
      r'.available = env.payload.available.getD r.available ∧
      r'.rating = env.payload.rating.getD r.rating ∧
      (syncProduct s env).2 = 200 := by
  have key := find?_updateFirst_self (fun x => x.syncId == some env.syncId)
    (applyPayload env.payload) r (fun x => rfl) s h
  refine ⟨applyPayload env.payload r, ?_, rfl, rfl, rfl, rfl, rfl, rfl, rfl, rfl, rfl, ?_⟩
  · unfold syncProduct
    rw [h]
    exact key
  · unfold syncProduct
    rw [h]

theorem syncProduct_merge_frame_witness :
    ∃ r', (syncProduct
        [⟨"Dosa", "crisp", 80, "TIFFIN", true, 4, some "server1_product_1_a", "server1", some "oid1"⟩]
        ⟨⟨some "Masala Dosa", none, some 95, none, none, none⟩,
          "server1_product_1_a", "server1", some "oid1"⟩).1.find?
          (fun x => x.syncId == some "server1_product_1_a") = some r' ∧
      r'.syncId = some "server1_product_1_a" ∧
      r'.serverOrigin = "server1" ∧
      r'.originalServerId = some "oid1" ∧
      r'.name = (some "Masala Dosa").getD "Dosa" ∧
      r'.description = Option.none.getD "crisp" ∧
      r'.price = (some (95 : Rat)).getD 80 ∧
      r'.category = Option.none.getD "TIFFIN" ∧
      r'.available = Option.none.getD true ∧
      r'.rating = Option.none.getD 4 ∧
      (syncProduct
        [⟨"Dosa", "crisp", 80, "TIFFIN", true, 4, some "server1_product_1_a", "server1", some "oid1"⟩]
        ⟨⟨some "Masala Dosa", none, some 95, none, none, none⟩,
          "server1_product_1_a", "server1", some "oid1"⟩).2 = 200 :=
  syncProduct_merge_frame
    [⟨"Dosa", "crisp", 80, "TIFFIN", true, 4, some "server1_product_1_a", "server1", some "oid1"⟩]
    ⟨⟨some "Masala Dosa", none, some 95, none, none, none⟩,
      "server1_product_1_a", "server1", some "oid1"⟩
    ⟨"Dosa", "crisp", 80, "TIFFIN", true, 4, some "server1_product_1_a", "server1", some "oid1"⟩
    (by decide)

/-! ## C5 — idempotent redelivery -/

theorem applyPayload_idem (p : ProductPayload) (r : ProductRec) :
    applyPayload p (applyPayload p r) = applyPayload p r := by
  simp [applyPayload, getD_getD]

theorem applyPayload_absorb_adopt (p : ProductPayload) (sid : String) (x : ProductRec) :
    applyPayload p { applyPayload p x with syncId := some sid }
      = { applyPayload p x with syncId := some sid } := by
  simp [applyPayload, getD_getD]

theorem mkProduct?_spec (env : ProductSyncEnv) (newp : ProductRec)
    (h : mkProduct? env = some newp) :
    (newp.syncId == some env.syncId) = true ∧ applyPayload env.payload newp = newp := by
  cases hn : env.payload.name with
  | none => simp [mkProduct?, hn] at h
  | some n =>
    cases hd : env.payload.description with
    | none => simp [mkProduct?, hn, hd] at h
    | some d =>
      cases hpr : env.payload.price with
      | none => simp [mkProduct?, hn, hd, hpr] at h
      | some pr =>
        cases hc : env.payload.category with
        | none => simp [mkProduct?, hn, hd, hpr, hc] at h
        | some c =>
          simp only [mkProduct?, hn, hd, hpr, hc, Option.some.injEq] at h
          subst h
          refine ⟨by simp, ?_⟩
          simp [applyPayload, hn, hd, hpr, hc, getD_getD]

/-- Re-running `syncProduct` after its create branch merges the identical
payload onto the just-created record, a no-op. -/
theorem syncProduct_after_create (s : List ProductRec) (env : ProductSyncEnv)
    (h1 : s.find? (fun r => r.syncId == some env.syncId) = none)
    (hcr : syncProduct s env = syncProductCreate s env) :
    (syncProduct (syncProductCreate s env).1 env).1 = (syncProductCreate s env).1 := by
  cases hm : mkProduct? env with
  | none =>
    have e1 : syncProductCreate s env = (s, 500) := by
      unfold syncProductCreate; rw [hm]
    rw [e1, hcr, e1]
  | some newp =>
    obtain ⟨hpnew, habs⟩ := mkProduct?_spec env newp hm
    have e1 : syncProductCreate s env = (s ++ [newp], 201) := by
      unfold syncProductCreate; rw [hm]
    have e2 := find?_append_last (fun r => r.syncId == some env.syncId) newp hpnew s h1
    have e3 : syncProduct (s ++ [newp]) env =
        (updateFirst (fun r => r.syncId == some env.syncId) (applyPayload env.payload)
          (s ++ [newp]), 200) := by
      unfold syncProduct; rw [e2]
    have e4 := updateFirst_append_last (fun r => r.syncId == some env.syncId)
      (applyPayload env.payload) newp hpnew s h1
    rw [e1, e3, e4, habs]

theorem syncProduct_idem (s : List ProductRec) (env : ProductSyncEnv) :
    (syncProduct (syncProduct s env).1 env).1 = (syncProduct s env).1 := by
  cases h1 : s.find? (fun r => r.syncId == some env.syncId) with
  | some r =>
    have e1 : syncProduct s env =
        (updateFirst (fun r => r.syncId == some env.syncId) (applyPayload env.payload) s,
          200) := by
      unfold syncProduct; rw [h1]
    have e2 := find?_updateFirst_self (fun r => r.syncId == some env.syncId)
      (applyPayload env.payload) r (fun x => rfl) s h1
    have e3 : syncProduct
        (updateFirst (fun r => r.syncId == some env.syncId) (applyPayload env.payload) s) env =
        (updateFirst (fun r => r.syncId == some env.syncId) (applyPayload env.payload)
          (updateFirst (fun r => r.syncId == some env.syncId) (applyPayload env.payload) s),
          200) := by
      unfold syncProduct; rw [e2]
    rw [e1, e3]
    exact updateFirst_idem (fun r => r.syncId == some env.syncId) (applyPayload env.payload)
      (fun x => rfl) (applyPayload_idem env.payload) s
  | none =>
    cases ho : env.originalServerId with
    | none =>
      have hcr : syncProduct s env = syncProductCreate s env := by
        unfold syncProduct
        rw [h1]
        dsimp only
        rw [ho]
      rw [hcr]
      exact syncProduct_after_create s env h1 hcr
    | some oid =>
      cases h2 : s.find?
          (fun r => r.originalServerId == some oid && r.serverOrigin == env.serverOrigin) with
      | none =>
        have hcr : syncProduct s env = syncProductCreate s env := by
          unfold syncProduct
          rw [h1]
          dsimp only
          rw [ho]
          dsimp only
          rw [h2]
        rw [hcr]
        exact syncProduct_after_create s env h1 hcr
      | some r =>
        have hf : ∀ x : ProductRec,
            ((fun r => { applyPayload env.payload r with syncId := some env.syncId }) x).syncId
              == some env.syncId := by
          intro x; simp
        have e1 : syncProduct s env =
            (updateFirst
              (fun r => r.originalServerId == some oid && r.serverOrigin == env.serverOrigin)
              (fun r => { applyPayload env.payload r with syncId := some env.syncId }) s,
              200) := by
          unfold syncProduct
          rw [h1]
          dsimp only
          rw [ho]
          dsimp only
          rw [h2]
        have e2 := find?_updateFirst_cross (fun r => r.syncId == some env.syncId)
          (fun r => r.originalServerId == some oid && r.serverOrigin == env.serverOrigin)
          (fun r => { applyPayload env.payload r with syncId := some env.syncId }) r hf s h1 h2
        have e3 : syncProduct
            (updateFirst
              (fun r => r.originalServerId == some oid && r.serverOrigin == env.serverOrigin)
              (fun r => { applyPayload env.payload r with syncId := some env.syncId }) s) env =
            (updateFirst (fun r => r.syncId == some env.syncId) (applyPayload env.payload)
              (updateFirst
                (fun r => r.originalServerId == some oid && r.serverOrigin == env.serverOrigin)
                (fun r => { applyPayload env.payload r with syncId := some env.syncId }) s),
              200) := by
          unfold syncProduct; rw [e2]
        rw [e1, e3]
        exact updateFirst_after_of_none _ _ _ _ hf
          (fun x => applyPayload_absorb_adopt env.payload env.syncId x) s h1

theorem syncCart_idem (s : List CartRec) (env : CartSyncEnv) :
    (syncCart (syncCart s env).1 env).1 = (syncCart s env).1 := by
  cases h : s.find? (fun c => c.syncId == some env.syncId) with
  | some c =>
    have e1 : syncCart s env =
        (updateFirst (fun c => c.syncId == some env.syncId)
          (fun c => { c with items := env.items.getD [], subTotal := env.subTotal.getD 0,
                             totalItems := env.totalItems.getD 0 }) s, 200) := by
      unfold syncCart; rw [h]
    have e2 := find?_updateFirst_self (fun c => c.syncId == some env.syncId)
      (fun c => { c with items := env.items.getD [], subTotal := env.subTotal.getD 0,
                         totalItems := env.totalItems.getD 0 }) c (fun x => rfl) s h
    have e3 : syncCart
        (updateFirst (fun c => c.syncId == some env.syncId)
          (fun c => { c with items := env.items.getD [], subTotal := env.subTotal.getD 0,
                             totalItems := env.totalItems.getD 0 }) s) env =
        (updateFirst (fun c => c.syncId == some env.syncId)
          (fun c => { c with items := env.items.getD [], subTotal := env.subTotal.getD 0,
                             totalItems := env.totalItems.getD 0 })
          (updateFirst (fun c => c.syncId == some env.syncId)
            (fun c => { c with items := env.items.getD [], subTotal := env.subTotal.getD 0,
                               totalItems := env.totalItems.getD 0 }) s), 200) := by
      unfold syncCart; rw [e2]
    rw [e1, e3]
    exact updateFirst_idem (fun c => c.syncId == some env.syncId)
      (fun c => { c with items := env.items.getD [], subTotal := env.subTotal.getD 0,
                         totalItems := env.totalItems.getD 0 })
      (fun x => rfl) (fun x => rfl) s
  | none =>
    have hp : ((⟨env.userId, env.items.getD [], env.subTotal.getD 0, env.totalItems.getD 0,
        some env.syncId, env.serverOrigin⟩ : CartRec).syncId == some env.syncId) = true := by
      simp
    have e1 : syncCart s env =
        (s ++ [⟨env.userId, env.items.getD [], env.subTotal.getD 0, env.totalItems.getD 0,
          some env.syncId, env.serverOrigin⟩], 201) := by
      unfold syncCart; rw [h]
    have e2 := find?_append_last (fun c => c.syncId == some env.syncId)
      (⟨env.userId, env.items.getD [], env.subTotal.getD 0, env.totalItems.getD 0,
        some env.syncId, env.serverOrigin⟩ : CartRec) hp s h
    have e3 : syncCart
        (s ++ [⟨env.userId, env.items.getD [], env.subTotal.getD 0, env.totalItems.getD 0,
          some env.syncId, env.serverOrigin⟩]) env =
        (updateFirst (fun c => c.syncId == some env.syncId)
          (fun c => { c with items := env.items.getD [], subTotal := env.subTotal.getD 0,
                             totalItems := env.totalItems.getD 0 })
          (s ++ [⟨env.userId, env.items.getD [], env.subTotal.getD 0, env.totalItems.getD 0,
            some env.syncId, env.serverOrigin⟩]), 200) := by
      unfold syncCart; rw [e2]
    have e4 := updateFirst_append_last (fun c => c.syncId == some env.syncId)
      (fun c => { c with items := env.items.getD [], subTotal := env.subTotal.getD 0,
                         totalItems := env.totalItems.getD 0 })
      (⟨env.userId, env.items.getD [], env.subTotal.getD 0, env.totalItems.getD 0,
        some env.syncId, env.serverOrigin⟩ : CartRec) hp s h
    rw [e1, e3, e4]

theorem syncCartClear_idem (s : List CartRec) (sid : String) :
    (syncCartClear (syncCartClear s sid).1 sid).1 = (syncCartClear s sid).1 := by
  cases h : s.find? (fun c => c.syncId == some sid) with
  | none =>
    have e1 : syncCartClear s sid = (s, 404) := by
      unfold syncCartClear; rw [h]
    rw [e1, e1]
  | some c =>
    have e1 : syncCartClear s sid =
        (updateFirst (fun c => c.syncId == some sid) (fun c => { c with items := [] }) s,
          200) := by
      unfold syncCartClear; rw [h]
    have e2 := find?_updateFirst_self (fun c => c.syncId == some sid)
      (fun c => { c with items := [] }) c (fun x => rfl) s h
    have e3 : syncCartClear
        (updateFirst (fun c => c.syncId == some sid) (fun c => { c with items := [] }) s) sid =
        (updateFirst (fun c => c.syncId == some sid) (fun c => { c with items := [] })
          (updateFirst (fun c => c.syncId == some sid) (fun c => { c with items := [] }) s),
          200) := by
      unfold syncCartClear; rw [e2]
    rw [e1, e3]
    exact updateFirst_idem (fun c => c.syncId == some sid)
      (fun c => { c with items := [] }) (fun x => rfl) (fun x => rfl) s

/-- C5: reconciling the same envelope twice in succession yields the same
final store as reconciling it once, for Product upsert (`syncProduct`),
Cart upsert (`syncCart`) and Basket clear (`syncCartClear`), from any local
store state. -/
theorem sync_redelivery_idempotent
    (ps : List ProductRec) (pe : ProductSyncEnv)
    (cs : List CartRec) (ce : CartSyncEnv)
    (cls : List CartRec) (csid : String) :
    (syncProduct (syncProduct ps pe).1 pe).1 = (syncProduct ps pe).1 ∧
    (syncCart (syncCart cs ce).1 ce).1 = (syncCart cs ce).1 ∧
    (syncCartClear (syncCartClear cls csid).1 csid).1 = (syncCartClear cls csid).1 :=
  ⟨syncProduct_idem ps pe, syncCart_idem cs ce, syncCartClear_idem cls csid⟩

/-! ## C3 — basket reconciliation identity -/

/-- C3 counterexample: `syncCart` neither resolves the envelope's account by
email nor attaches the basket to a resolved local account.  With no matching
cart, it creates one owned by the originating server's raw `userId`
(`"remote_uid_1"`); with a matching syncId it updates that cart regardless of
its owner. -/
theorem syncCart_attaches_raw_userId :
    (syncCart [] ⟨some [], some 0, some 0, "server1_cart_u1_5", "server1", "remote_uid_1"⟩).1
      = [⟨"remote_uid_1", [], 0, 0, some "server1_cart_u1_5", "server1"⟩] ∧
    (syncCart [⟨"local_uid_9", [⟨"p1", 2, 50, 100⟩], 100, 2, some "server1_cart_u1_5", "server1"⟩]
        ⟨some [], some 0, some 0, "server1_cart_u1_5", "server1", "remote_uid_1"⟩).1
      = [⟨"local_uid_9", [], 0, 0, some "server1_cart_u1_5", "server1"⟩] := by
  refine ⟨by decide, by decide⟩

/-- C3 amended: `syncCart` performs no account resolution at all — it looks
the basket up directly by the basket's own `syncId`; when absent it creates a
basket attached verbatim to the originating server's raw `userId`, and when
present it overwrites that cart's contents leaving its owner unchanged.
(Email-based account resolution happens in `syncOrder`, not in `syncCart`.) -/
theorem syncCart_lookup_by_own_syncId
    (s : List CartRec) (env : CartSyncEnv) :
    (s.find? (fun c => c.syncId == some env.syncId) = none →
      (syncCart s env).1 = s ++ [⟨env.userId, env.items.getD [], env.subTotal.getD 0,
        env.totalItems.getD 0, some env.syncId, env.serverOrigin⟩]) ∧
    (∀ c, s.find? (fun c => c.syncId == some env.syncId) = some c →
      (syncCart s env).1.find? (fun x => x.syncId == some env.syncId)
        = some { c with items := env.items.getD [], subTotal := env.subTotal.getD 0,
                        totalItems := env.totalItems.getD 0 }) := by
  constructor
  · intro h
    unfold syncCart
    rw [h]
  · intro c h
    have key := find?_updateFirst_self (fun x => x.syncId == some env.syncId)
      (fun x => { x with items := env.items.getD [], subTotal := env.subTotal.getD 0,
                         totalItems := env.totalItems.getD 0 }) c (fun x => rfl) s h
    unfold syncCart
    rw [h]
    exact key

theorem syncCart_lookup_by_own_syncId_witness :
    (syncCart [] ⟨some [⟨"p2", 1, 30, 30⟩], some 30, some 1,
        "server2_cart_u7_3", "server2", "raw_uid_7"⟩).1
      = [⟨"raw_uid_7", [⟨"p2", 1, 30, 30⟩], 30, 1, some "server2_cart_u7_3", "server2"⟩] ∧
    (syncCart [⟨"uidL", [], 0, 0, some "server2_cart_u7_3", "server1"⟩]
        ⟨some [⟨"p2", 1, 30, 30⟩], some 30, some 1,
          "server2_cart_u7_3", "server2", "raw_uid_7"⟩).1.find?
        (fun x => x.syncId == some "server2_cart_u7_3")
      = some ⟨"uidL", [⟨"p2", 1, 30, 30⟩], 30, 1, some "server2_cart_u7_3", "server1"⟩ :=
  ⟨(syncCart_lookup_by_own_syncId []
      ⟨some [⟨"p2", 1, 30, 30⟩], some 30, some 1,
        "server2_cart_u7_3", "server2", "raw_uid_7"⟩).1 (by decide),
   (syncCart_lookup_by_own_syncId [⟨"uidL", [], 0, 0, some "server2_cart_u7_3", "server1"⟩]
      ⟨some [⟨"p2", 1, 30, 30⟩], some 30, some 1,
        "server2_cart_u7_3", "server2", "raw_uid_7"⟩).2
     ⟨"uidL", [], 0, 0, some "server2_cart_u7_3", "server1"⟩ (by decide)⟩

/-! ## Order helper lemmas -/

theorem mem_recomputed_total (l : List OrderItem) :
    ∀ it ∈ l.map (fun i => { i with total := i.price * (i.quantity : Rat) }),
      it.total = it.price * (it.quantity : Rat) := by
  intro it hit
  rw [List.mem_map] at hit
  obtain ⟨j, _, rfl⟩ := hit
  simp

theorem map_total_recompute (l : List OrderItem) :
    l.map ((fun i => i.total) ∘ (fun i => { i with total := i.price * (i.quantity : Rat) }))
      = l.map (fun i => i.price * (i.quantity : Rat)) := by
  induction l with
  | nil => rfl
  | cons a t ih => simp_all [Function.comp]

theorem map_recompute_id (l : List OrderItem)
    (h : ∀ it ∈ l, it.total = it.price * (it.quantity : Rat)) :
    l.map (fun i => { i with total := i.price * (i.quantity : Rat) }) = l := by
  induction l with
  | nil => rfl
  | cons a t ih =>
    have ha := h a (by simp)
    have ht := ih (fun it hit => h it (by simp [hit]))
    cases a
    simp_all [List.map_cons]

theorem isEmpty_false_of_perm {l₁ l₂ : List α} (h : l₁.Perm l₂)
    (h1 : l₁.isEmpty = false) : l₂.isEmpty = false := by
  have := h.length_eq
  cases l₁ <;> cases l₂ <;> simp_all

/-- `preSave` on a record with no order number yet and a nonempty item list:
number generated, line totals and `subtotal` recomputed, `totalAmount`
derived; everything else copied. -/
theorem preSave_compute (gn : String) (u : String) (items : List OrderItem)
    (st pm ps : String) (sub tax fee tot : Rat) (sid : Option String) (so : String)
    (ad : Option Nat) (hne : items.isEmpty = false) :
    preSave gn ⟨u, "", items, st, pm, ps, sub, tax, fee, tot, sid, so, ad⟩ =
      ⟨u, gn, items.map (fun i => { i with total := i.price * (i.quantity : Rat) }), st, pm, ps,
        (items.map (fun i => i.price * (i.quantity : Rat))).sum, tax, fee,
        (items.map (fun i => i.price * (i.quantity : Rat))).sum + tax + fee, sid, so, ad⟩ := by
  unfold preSave
  simp [hne, List.map_map, map_total_recompute]

/-- `preSave` never touches the non-derived fields. -/
theorem preSave_frame (gn : String) (o : OrderRec) :
    (preSave gn o).user = o.user ∧
    (preSave gn o).status = o.status ∧
    (preSave gn o).paymentMethod = o.paymentMethod ∧
    (preSave gn o).paymentStatus = o.paymentStatus ∧
    (preSave gn o).tax = o.tax ∧
    (preSave gn o).deliveryFee = o.deliveryFee ∧
    (preSave gn o).syncId = o.syncId ∧
    (preSave gn o).serverOrigin = o.serverOrigin ∧
    (preSave gn o).actualDelivery = o.actualDelivery := by
  unfold preSave
  by_cases h1 : o.orderNumber = "" <;> by_cases h2 : o.items.isEmpty <;> simp [h1, h2]

theorem preSave_syncId (gn : String) (o : OrderRec) :
    (preSave gn o).syncId = o.syncId := by
  unfold preSave
  by_cases h1 : o.orderNumber = "" <;> by_cases h2 : o.items.isEmpty <;> simp [h1, h2]

/-- After any `preSave`, every line's total is consistent. -/
theorem preSave_items_total (gn : String) (o : OrderRec) :
    ∀ it ∈ (preSave gn o).items, it.total = it.price * (it.quantity : Rat) := by
  intro it hit
  by_cases h2 : o.items.isEmpty
  · have hnil : o.items = [] := by
      cases h : o.items
      · rfl
      · rw [h] at h2; simp at h2
    unfold preSave at hit
    by_cases h1 : o.orderNumber = "" <;> simp [h1, h2, hnil] at hit
  · unfold preSave at hit
    by_cases h1 : o.orderNumber = "" <;>
      simp [h1, h2] at hit <;>
      obtain ⟨j, _, rfl⟩ := hit <;>
      simp

/-- After any `preSave`, `totalAmount` is the derived sum. -/
theorem preSave_totalAmount (gn : String) (o : OrderRec) :
    (preSave gn o).totalAmount
      = (preSave gn o).subtotal + o.tax + o.deliveryFee := by
  unfold preSave
  by_cases h1 : o.orderNumber = "" <;> by_cases h2 : o.items.isEmpty <;> simp [h1, h2]

/-- After `preSave` on a record with nonempty items, `subtotal` is the sum of
`price × quantity` over the lines. -/
theorem preSave_subtotal (gn : String) (o : OrderRec) (hne : o.items.isEmpty = false) :
    (preSave gn o).subtotal = (o.items.map (fun i => i.price * (i.quantity : Rat))).sum := by
  unfold preSave
  by_cases h1 : o.orderNumber = "" <;> simp [h1, hne, List.map_map, map_total_recompute]

/-- Saving any record that carries the payload's replicable fields through
the pre-save hook yields an `AdoptedRecomputed` result. -/
theorem preSave_adopted (gn : String) (payload base : OrderRec)
    (hitems : base.items = payload.items)
    (hst : base.status = payload.status)
    (hpm : base.paymentMethod = payload.paymentMethod)
    (hps : base.paymentStatus = payload.paymentStatus)
    (htax : base.tax = payload.tax)
    (hfee : base.deliveryFee = payload.deliveryFee) :
    AdoptedRecomputed payload (preSave gn base) := by
  obtain ⟨_, hstat, hpm', hps', htax', hfee', _, _, _⟩ := preSave_frame gn base
  refine ⟨hstat.trans hst, hpm'.trans hpm, hps'.trans hps, htax'.trans htax,
    hfee'.trans hfee, preSave_items_total gn base, ?_, ?_⟩
  · rw [preSave_totalAmount, htax', hfee']
  · intro hni
    have hb : base.items.isEmpty = false := by rw [hitems]; exact hni
    rw [preSave_subtotal gn base hb, hitems]

/-- A record every persisted order satisfies is a fixed point of the
pre-save hook. -/
theorem savedOrder_preSave_fix (gn : String) (o : OrderRec) (h : SavedOrder o) :
    preSave gn o = o := by
  obtain ⟨h1, h2, h3, h4⟩ := h
  unfold preSave
  by_cases he : o.items.isEmpty
  · simp [h1, he, ← h4]
  · have hid := map_recompute_id o.items h2
    have hsub := h3 (by simp [he])
    simp [h1, he, hid, ← hsub, ← h4]

theorem savedOrder_set_status (o : OrderRec) (h : SavedOrder o)
    (st ps : String) (ad : Option Nat) :
    SavedOrder { o with status := st, paymentStatus := ps, actualDelivery := ad } := by
  obtain ⟨h1, h2, h3, h4⟩ := h
  exact ⟨h1, h2, h3, h4⟩

/-! ## C7 — order total computation on local creation -/

/-- C7 counterexample: a cart line whose stored price (100) differs from the
product's current price (200).  `createOrder` computes `tax` and
`deliveryFee` from the cart-price subtotal (100), while the pre-save hook
recomputes line totals and `subtotal` from the current product price (200):
the persisted order has subtotal 200 but tax 5 ≠ 200 × 0.05. -/
theorem createOrder_tax_not_from_persisted_subtotal :
    (createOrder [⟨"p1", "Dish", 200, true⟩]
        ⟨"u1", [⟨"p1", 1, 100, 100⟩], 100, 1, some "server1_cart_u1_1", "server1"⟩
        none "server1_order_1_a" "server1" "ORD1").order
      = some ⟨"u1", "ORD1", [⟨"p1", "Dish", 200, 1, 200⟩], "pending", "cash_on_delivery",
          "pending", 200, 5, 49, 254, some "server1_order_1_a", "server1", none⟩ ∧
    (5 : Rat) ≠ 200 * (5 / 100) := by
  constructor
  · have hmk : mkOrderItems [(⟨"p1", "Dish", 200, true⟩ : CatalogEntry)]
        [(⟨"p1", 1, 100, 100⟩ : CartItem)] = [⟨"p1", "Dish", 200, 1, 100⟩] := by
      unfold mkOrderItems findCatalog
      norm_num [List.find?, List.filterMap_cons, List.filterMap_nil]
    unfold createOrder
    rw [hmk]
    norm_num [preSave, List.map_cons, List.map_nil, List.sum_cons, List.sum_nil]
  · norm_num

/-- C7 amended: for a locally created order with surviving item list
`mkOrderItems catalog cart.items`, the persisted record satisfies: each
line's `total = price × quantity` and `subtotal = Σ line totals` (recomputed
by the pre-save hook from the *current* product prices), and
`totalAmount = subtotal + tax + deliveryFee`; but `tax = s₀ × 0.05` and
`deliveryFee = 0 iff s₀ > 500` are computed from the *cart-price* subtotal
`s₀ = Σ stored-cart-price × quantity` over the surviving lines, which equals
the persisted subtotal only when each stored cart price matches the current
product price.  All the amounts are independent of the order of the cart's
items. -/
theorem createOrder_totals
    (catalog : List CatalogEntry) (cart : CartRec) (pm : Option String)
    (sid so gn : String)
    (hne : cart.items.isEmpty = false)
    (hsurv : (mkOrderItems catalog cart.items).isEmpty = false) :
    ∃ o, (createOrder catalog cart pm sid so gn).order = some o ∧
      (∀ it ∈ o.items, it.total = it.price * it.quantity) ∧
      o.subtotal = (o.items.map (fun i => i.total)).sum ∧
      o.tax = ((mkOrderItems catalog cart.items).map (fun i => i.total)).sum * (5 / 100) ∧
      o.deliveryFee = (if ((mkOrderItems catalog cart.items).map (fun i => i.total)).sum > 500
        then (0 : Rat) else 49) ∧
      o.totalAmount = o.subtotal + o.tax + o.deliveryFee ∧
      (∀ items₂ : List CartItem, cart.items.Perm items₂ →
        ∃ o₂, (createOrder catalog { cart with items := items₂ } pm sid so gn).order = some o₂ ∧
          o₂.subtotal = o.subtotal ∧ o₂.tax = o.tax ∧ o₂.deliveryFee = o.deliveryFee ∧
          o₂.totalAmount = o.totalAmount) := by
  have e1 : (createOrder catalog cart pm sid so gn).order =
      some (preSave gn ⟨cart.user, "", mkOrderItems catalog cart.items, "pending",
        pm.getD "cash_on_delivery", "pending",
        ((mkOrderItems catalog cart.items).map (fun i => i.total)).sum,
        ((mkOrderItems catalog cart.items).map (fun i => i.total)).sum * (5 / 100),
        (if ((mkOrderItems catalog cart.items).map (fun i => i.total)).sum > 500
          then (0 : Rat) else 49),
        ((mkOrderItems catalog cart.items).map (fun i => i.total)).sum
          + ((mkOrderItems catalog cart.items).map (fun i => i.total)).sum * (5 / 100)
          + (if ((mkOrderItems catalog cart.items).map (fun i => i.total)).sum > 500
              then (0 : Rat) else 49),
        some sid, so, none⟩) := by
    unfold createOrder
    simp [hne, hsurv]
  rw [e1, preSave_compute _ _ _ _ _ _ _ _ _ _ _ _ _ hsurv]
  refine ⟨_, rfl, mem_recomputed_total _, ?_, rfl, rfl, rfl, ?_⟩
  · simp only [List.map_map, map_total_recompute]
  · intro items₂ hperm
    have hne₂ : items₂.isEmpty = false := isEmpty_false_of_perm hperm hne
    have hmkperm : (mkOrderItems catalog cart.items).Perm (mkOrderItems catalog items₂) :=
      hperm.filterMap _
    have hsurv₂ : (mkOrderItems catalog items₂).isEmpty = false :=
      isEmpty_false_of_perm hmkperm hsurv
    have hsum : ((mkOrderItems catalog items₂).map (fun i => i.total)).sum
        = ((mkOrderItems catalog cart.items).map (fun i => i.total)).sum :=
      (hmkperm.map (fun i => i.total)).sum_eq.symm
    have hsumpq : ((mkOrderItems catalog items₂).map
          (fun i => i.price * (i.quantity : Rat))).sum
        = ((mkOrderItems catalog cart.items).map
          (fun i => i.price * (i.quantity : Rat))).sum :=
      (hmkperm.map (fun i => i.price * (i.quantity : Rat))).sum_eq.symm
    have e2 : (createOrder catalog { cart with items := items₂ } pm sid so gn).order =
        some (preSave gn ⟨cart.user, "", mkOrderItems catalog items₂, "pending",
          pm.getD "cash_on_delivery", "pending",
          ((mkOrderItems catalog items₂).map (fun i => i.total)).sum,
          ((mkOrderItems catalog items₂).map (fun i => i.total)).sum * (5 / 100),
          (if ((mkOrderItems catalog items₂).map (fun i => i.total)).sum > 500
            then (0 : Rat) else 49),
          ((mkOrderItems catalog items₂).map (fun i => i.total)).sum
            + ((mkOrderItems catalog items₂).map (fun i => i.total)).sum * (5 / 100)
            + (if ((mkOrderItems catalog items₂).map (fun i => i.total)).sum > 500
                then (0 : Rat) else 49),
          some sid, so, none⟩) := by
      unfold createOrder
      simp [hne₂, hsurv₂]
    rw [e2, preSave_compute _ _ _ _ _ _ _ _ _ _ _ _ _ hsurv₂]
    refine ⟨_, rfl, ?_⟩
    simp [hsum, hsumpq]

theorem createOrder_totals_witness :
    ∃ o, (createOrder [⟨"p1", "Dish", 100, true⟩]
        ⟨"u1", [⟨"p1", 2, 100, 200⟩], 200, 1, some "server1_cart_u1_2", "server1"⟩
        none "server1_order_2_b" "server1" "ORD2").order = some o ∧
      (∀ it ∈ o.items, it.total = it.price * it.quantity) ∧
      o.subtotal = (o.items.map (fun i => i.total)).sum ∧
      o.tax = ((mkOrderItems [⟨"p1", "Dish", 100, true⟩] [⟨"p1", 2, 100, 200⟩]).map
          (fun i => i.total)).sum * (5 / 100) ∧
      o.deliveryFee = (if ((mkOrderItems [⟨"p1", "Dish", 100, true⟩]
          [⟨"p1", 2, 100, 200⟩]).map (fun i => i.total)).sum > 500 then (0 : Rat) else 49) ∧
      o.totalAmount = o.subtotal + o.tax + o.deliveryFee ∧
      (∀ items₂ : List CartItem, [⟨"p1", 2, 100, 200⟩].Perm items₂ →
        ∃ o₂, (createOrder [⟨"p1", "Dish", 100, true⟩]
            ⟨"u1", items₂, 200, 1, some "server1_cart_u1_2", "server1"⟩
            none "server1_order_2_b" "server1" "ORD2").order = some o₂ ∧
          o₂.subtotal = o.subtotal ∧ o₂.tax = o.tax ∧ o₂.deliveryFee = o.deliveryFee ∧
          o₂.totalAmount = o.totalAmount) :=
  createOrder_totals [⟨"p1", "Dish", 100, true⟩]
    ⟨"u1", [⟨"p1", 2, 100, 200⟩], 200, 1, some "server1_cart_u1_2", "server1"⟩
    none "server1_order_2_b" "server1" "ORD2" (by decide) (by decide)

/-! ## C8 — zero survivable items -/

theorem mkOrderItems_nil_of_all_fail (catalog : List CatalogEntry) (items : List CartItem)
    (h : ∀ it ∈ items,
      Option.all (fun p => !p.available) (findCatalog catalog it.product) = true) :
    mkOrderItems catalog items = [] := by
  induction items with
  | nil => rfl
  | cons a t ih =>
    have ha := h a (by simp)
    have ht := ih (fun it hit => h it (by simp [hit]))
    unfold mkOrderItems at ht ⊢
    cases hf : findCatalog catalog a.product with
    | none => simp [List.filterMap_cons, hf, ht]
    | some p =>
      rw [hf] at ha
      simp only [Option.all_some, Bool.not_eq_true'] at ha
      simp [List.filterMap_cons, hf, ha, ht]

/-- C8: when the cart is nonempty but every line fails the availability
filter (product missing from the catalog or marked unavailable),
`createOrder` answers 400, creates no order, leaves the cart untouched and
dispatches no envelope. -/
theorem createOrder_zero_survivors
    (catalog : List CatalogEntry) (cart : CartRec) (pm : Option String)
    (sid so gn : String)
    (hne : cart.items.isEmpty = false)
    (hall : ∀ it ∈ cart.items,
      Option.all (fun p => !p.available) (findCatalog catalog it.product) = true) :
    createOrder catalog cart pm sid so gn = ⟨400, none, cart, []⟩ := by
  have h0 := mkOrderItems_nil_of_all_fail catalog cart.items hall
  unfold createOrder
  simp [hne, h0]

theorem createOrder_zero_survivors_witness :
    createOrder [⟨"p1", "Dish", 100, false⟩]
        ⟨"u1", [⟨"p1", 1, 100, 100⟩, ⟨"p2", 3, 40, 120⟩], 220, 2,
          some "server1_cart_u1_3", "server1"⟩
        none "server1_order_3_c" "server1" "ORD3"
      = ⟨400, none,
          ⟨"u1", [⟨"p1", 1, 100, 100⟩, ⟨"p2", 3, 40, 120⟩], 220, 2,
            some "server1_cart_u1_3", "server1"⟩, []⟩ :=
  createOrder_zero_survivors [⟨"p1", "Dish", 100, false⟩]
    ⟨"u1", [⟨"p1", 1, 100, 100⟩, ⟨"p2", 3, 40, 120⟩], 220, 2,
      some "server1_cart_u1_3", "server1"⟩
    none "server1_order_3_c" "server1" "ORD3" (by decide) (by decide)

/-! ## C6 — order sync adoption vs. the pre-save hook -/

/-- C6 counterexample: an inbound order envelope whose payload carries line
`total = 999`, `subtotal = 999` and `totalAmount = 999` for a single line of
price 10 × quantity 2.  The receiving node persists `total = 20`,
`subtotal = 20`, `totalAmount = 20`: the pre-save hook recomputed the
derived totals from the line items instead of trusting the originator's. -/
theorem syncOrder_recomputes_totals :
    ((syncOrder [⟨"lu1", "a@x.com"⟩] [] []
        ⟨⟨"remote_u", "ORD1234567890", [⟨"p1", "Dish", 10, 2, 999⟩], "pending",
          "cash_on_delivery", "pending", 999, 0, 0, 999, some "server1_order_1_abc",
          "server1", none⟩,
         "server1_order_1_abc", "server1", "a@x.com"⟩ "GEN1").2.1)
      = [⟨"lu1", "ORD1234567890", [⟨"p1", "Dish", 10, 2, 20⟩], "pending",
          "cash_on_delivery", "pending", 20, 0, 0, 20, some "server1_order_1_abc",
          "server1", none⟩] ∧
    (999 : Rat) ≠ 20 := by
  constructor
  · have hno : ¬ (("ORD1234567890" : String) = "") := by decide
    unfold syncOrder
    norm_num [hno, List.find?, preSave, updateFirst, List.map_cons, List.map_nil,
      List.sum_cons, List.sum_nil]
  · norm_num

/-- C6 amended: for every inbound Order upsert envelope whose owning account
resolves locally (and whose payload carries the envelope's syncId, as every
envelope built by the propagator does), `syncOrder` adopts the payload
wholesale — status, payment fields, `tax` and `deliveryFee` verbatim — but
the record is *not* persisted verbatim: the pre-save hook recomputes every
line's `total = price × quantity`, the `subtotal` (when the line list is
nonempty) and `totalAmount = subtotal + tax + deliveryFee` from the line
items.  The persisted owner differs by branch: on a syncId match and on
fresh creation the order's `user` is re-pointed to the resolved local
account, while on the orderNumber-adoption branch the trailing
`Object.assign` restores the originator's raw `user`. -/
theorem syncOrder_adopts_and_recomputes
    (users : List AccountView) (carts : List CartRec) (orders : List OrderRec)
    (env : OrderSyncEnv) (gn : String) (lu : AccountView)
    (hu : users.find? (fun u => u.email == env.userEmail) = some lu)
    (hsid : env.orderData.syncId = some env.syncId) :
    (∀ r, orders.find? (fun o => o.syncId == some env.syncId) = some r →
      ∃ o, (syncOrder users carts orders env gn).2.1.find?
          (fun x => x.syncId == some env.syncId) = some o ∧
        o = preSave gn { env.orderData with user := lu.uid } ∧
        o.user = lu.uid ∧ AdoptedRecomputed env.orderData o) ∧
    (orders.find? (fun o => o.syncId == some env.syncId) = none →
      ∀ r, orders.find? (fun o => o.orderNumber == env.orderData.orderNumber) = some r →
      ∃ o, (syncOrder users carts orders env gn).2.1.find?
          (fun x => x.syncId == some env.syncId) = some o ∧
        o = preSave gn env.orderData ∧
        o.user = env.orderData.user ∧ AdoptedRecomputed env.orderData o) ∧
    (orders.find? (fun o => o.syncId == some env.syncId) = none →
      orders.find? (fun o => o.orderNumber == env.orderData.orderNumber) = none →
      ∃ o, (syncOrder users carts orders env gn).2.1 = orders ++ [o] ∧
        o = preSave gn { env.orderData with
                         syncId := some env.syncId,
                         serverOrigin := env.serverOrigin,
                         user := lu.uid } ∧
        o.user = lu.uid ∧ o.syncId = some env.syncId ∧
        o.serverOrigin = env.serverOrigin ∧ AdoptedRecomputed env.orderData o) := by
  refine ⟨?_, ?_, ?_⟩
  · intro r hr
    have hf : ∀ x : OrderRec,
        (((fun _ => preSave gn { env.orderData with user := lu.uid }) x).syncId
          == some env.syncId) = true := by
      intro x
      simp [preSave_syncId, hsid]
    have e1 : (syncOrder users carts orders env gn).2.1 =
        updateFirst (fun o => o.syncId == some env.syncId)
          (fun _ => preSave gn { env.orderData with user := lu.uid }) orders := by
      unfold syncOrder
      rw [hu]
      dsimp only
      rw [hr]
    have key := find?_updateFirst_self_of_true (fun o => o.syncId == some env.syncId)
      (fun _ => preSave gn { env.orderData with user := lu.uid }) r hf orders hr
    refine ⟨_, ?_, rfl, (preSave_frame gn _).1.trans rfl,
      preSave_adopted gn env.orderData _ rfl rfl rfl rfl rfl rfl⟩
    rw [e1]
    exact key
  · intro h1 r hr
    have hf : ∀ x : OrderRec,
        (((fun _ => preSave gn env.orderData) x).syncId == some env.syncId) = true := by
      intro x
      simp [preSave_syncId, hsid]
    have e1 : (syncOrder users carts orders env gn).2.1 =
        updateFirst (fun o => o.orderNumber == env.orderData.orderNumber)
          (fun _ => preSave gn env.orderData) orders := by
      unfold syncOrder
      rw [hu]
      dsimp only
      rw [h1]
      dsimp only
      rw [hr]
    have key := find?_updateFirst_cross (fun o => o.syncId == some env.syncId)
      (fun o => o.orderNumber == env.orderData.orderNumber)
      (fun _ => preSave gn env.orderData) r hf orders h1 hr
    refine ⟨_, ?_, rfl, (preSave_frame gn _).1.trans rfl,
      preSave_adopted gn env.orderData _ rfl rfl rfl rfl rfl rfl⟩
    rw [e1]
    exact key
  · intro h1 h2
    have e1 : (syncOrder users carts orders env gn).2.1 =
        orders ++ [preSave gn { env.orderData with
                                syncId := some env.syncId,
                                serverOrigin := env.serverOrigin,
                                user := lu.uid }] := by
      unfold syncOrder
      rw [hu]
      dsimp only
      rw [h1]
      dsimp only
      rw [h2]
    obtain ⟨huser, _, _, _, _, _, hsid', hso', _⟩ :=
      preSave_frame gn { env.orderData with
                         syncId := some env.syncId,
                         serverOrigin := env.serverOrigin,
                         user := lu.uid }
    exact ⟨_, e1, rfl, huser.trans rfl, hsid'.trans rfl, hso'.trans rfl,
      preSave_adopted gn env.orderData _ rfl rfl rfl rfl rfl rfl⟩

theorem syncOrder_adopts_and_recomputes_witness :
    ∃ o, (syncOrder [⟨"lu2", "b@x.com"⟩] [] []
        ⟨⟨"remote_u2", "ORD2345678901", [⟨"p2", "Idli", 30, 3, 90⟩], "confirmed",
          "online_payment", "completed", 90, 2, 49, 141, some "server2_order_4_d",
          "server2", none⟩,
         "server2_order_4_d", "server2", "b@x.com"⟩ "GEN2").2.1 = [] ++ [o] ∧
      o = preSave "GEN2" ⟨"lu2", "ORD2345678901", [⟨"p2", "Idli", 30, 3, 90⟩],
        "confirmed", "online_payment", "completed", 90, 2, 49, 141,
        some "server2_order_4_d", "server2", none⟩ ∧
      o.user = "lu2" ∧
      o.syncId = some "server2_order_4_d" ∧
      o.serverOrigin = "server2" ∧
      AdoptedRecomputed
        ⟨"remote_u2", "ORD2345678901", [⟨"p2", "Idli", 30, 3, 90⟩], "confirmed",
          "online_payment", "completed", 90, 2, 49, 141, some "server2_order_4_d",
          "server2", none⟩ o :=
  (syncOrder_adopts_and_recomputes [⟨"lu2", "b@x.com"⟩] [] []
    ⟨⟨"remote_u2", "ORD2345678901", [⟨"p2", "Idli", 30, 3, 90⟩], "confirmed",
      "online_payment", "completed", 90, 2, 49, 141, some "server2_order_4_d",
      "server2", none⟩,
     "server2_order_4_d", "server2", "b@x.com"⟩ "GEN2" ⟨"lu2", "b@x.com"⟩
    (by decide) (by decide)).2.2 (by decide) (by decide)

/-! ## C10 — order status sync side effects -/

/-- C10: on an inbound `update_status` sync for an order found by `syncId`
(a persisted, hence pre-save-consistent, record): when the incoming status is
`"delivered"`, the reconciler sets `status`, stamps `actualDelivery` with the
current time and sets `paymentStatus` to `"completed"`; for every other
(nonempty) incoming status only the `status` field changes; the response is
200. -/
theorem syncOrderUpdate_status_frame
    (orders : List OrderRec) (sid status : String) (now : Nat) (gn : String)
    (o : OrderRec)
    (hfind : orders.find? (fun x => x.syncId == some sid) = some o)
    (hsaved : SavedOrder o)
    (hst : status ≠ "") :
    (status = "delivered" →
      (syncOrderUpdate orders sid status "update_status" now gn).1.find?
          (fun x => x.syncId == some sid)
        = some { o with status := status, paymentStatus := "completed",
                        actualDelivery := some now }) ∧
    (status ≠ "delivered" →
      (syncOrderUpdate orders sid status "update_status" now gn).1.find?
          (fun x => x.syncId == some sid)
        = some { o with status := status }) ∧
    (syncOrderUpdate orders sid status "update_status" now gn).2 = 200 := by
  have hpf : ∀ x : OrderRec,
      (((fun x =>
          let o1 : OrderRec := { x with status := status }
          let o2 := if status = "delivered"
            then { o1 with actualDelivery := some now, paymentStatus := "completed" }
            else o1
          preSave gn o2) x).syncId == some sid) = (x.syncId == some sid) := by
    intro x
    by_cases hd : status = "delivered" <;> simp [hd, preSave_syncId]
  have e1 : syncOrderUpdate orders sid status "update_status" now gn =
      (updateFirst (fun x => x.syncId == some sid)
        (fun x =>
          let o1 : OrderRec := { x with status := status }
          let o2 := if status = "delivered"
            then { o1 with actualDelivery := some now, paymentStatus := "completed" }
            else o1
          preSave gn o2) orders, 200) := by
    unfold syncOrderUpdate
    rw [hfind]
    dsimp only
    rw [if_pos ⟨rfl, hst⟩]
  have key := find?_updateFirst_self (fun x => x.syncId == some sid)
    (fun x =>
      let o1 : OrderRec := { x with status := status }
      let o2 := if status = "delivered"
        then { o1 with actualDelivery := some now, paymentStatus := "completed" }
        else o1
      preSave gn o2) o hpf orders hfind
  refine ⟨?_, ?_, ?_⟩
  · intro hd
    rw [e1]
    dsimp only
    rw [key]
    dsimp only
    rw [if_pos hd]
    rw [savedOrder_preSave_fix gn _ (savedOrder_set_status o hsaved status "completed" (some now))]
  · intro hd
    rw [e1]
    dsimp only
    rw [key]
    dsimp only
    rw [if_neg hd]
    rw [savedOrder_preSave_fix gn _
      (savedOrder_set_status o hsaved status o.paymentStatus o.actualDelivery)]
  · rw [e1]

theorem syncOrderUpdate_status_frame_witness :
    (("preparing" : String) = "delivered" →
      (syncOrderUpdate
          [⟨"u1", "ORD9876543210", [⟨"p1", "Dish", 10, 2, 20⟩], "pending",
            "cash_on_delivery", "pending", 20, 1, 49, 70, some "server1_order_9_z",
            "server1", none⟩]
          "server1_order_9_z" "preparing" "update_status" 1700000 "GEN3").1.find?
          (fun x => x.syncId == some "server1_order_9_z")
        = some ⟨"u1", "ORD9876543210", [⟨"p1", "Dish", 10, 2, 20⟩], "preparing",
            "cash_on_delivery", "completed", 20, 1, 49, 70, some "server1_order_9_z",
            "server1", some 1700000⟩) ∧
    (("preparing" : String) ≠ "delivered" →
      (syncOrderUpdate
          [⟨"u1", "ORD9876543210", [⟨"p1", "Dish", 10, 2, 20⟩], "pending",
            "cash_on_delivery", "pending", 20, 1, 49, 70, some "server1_order_9_z",
            "server1", none⟩]
          "server1_order_9_z" "preparing" "update_status" 1700000 "GEN3").1.find?
          (fun x => x.syncId == some "server1_order_9_z")
        = some ⟨"u1", "ORD9876543210", [⟨"p1", "Dish", 10, 2, 20⟩], "preparing",
            "cash_on_delivery", "pending", 20, 1, 49, 70, some "server1_order_9_z",
            "server1", none⟩) ∧
    (syncOrderUpdate
        [⟨"u1", "ORD9876543210", [⟨"p1", "Dish", 10, 2, 20⟩], "pending",
          "cash_on_delivery", "pending", 20, 1, 49, 70, some "server1_order_9_z",
          "server1", none⟩]
        "server1_order_9_z" "preparing" "update_status" 1700000 "GEN3").2 = 200 :=
  syncOrderUpdate_status_frame
    [⟨"u1", "ORD9876543210", [⟨"p1", "Dish", 10, 2, 20⟩], "pending",
      "cash_on_delivery", "pending", 20, 1, 49, 70, some "server1_order_9_z",
      "server1", none⟩]
    "server1_order_9_z" "preparing" 1700000 "GEN3"
    ⟨"u1", "ORD9876543210", [⟨"p1", "Dish", 10, 2, 20⟩], "pending",
      "cash_on_delivery", "pending", 20, 1, 49, 70, some "server1_order_9_z",
      "server1", none⟩
    (by decide)
    (by
      refine ⟨by decide, ?_, ?_, by norm_num⟩
      · intro it hit
        simp only [List.mem_singleton] at hit
        subst hit
        norm_num
      · intro _
        norm_num)
    (by decide)

end FoodApp
